import Mathlib

/-!
Verification of the FastGraphics rendering engine (FastGraphics.cpp).

The engine is shallowly embedded: the library's static variables become the
fields of `GfxState`, `int16_t` values are modelled as `Int` (all reachable
arithmetic stays far from the 16-bit limits), `uint16_t` colors as `Nat`,
and the physical framebuffer as a total map from cell index to color.
Drawing primitives are translated as trace-producing functions: each
primitive first computes the list of framebuffer cell indices it stores to
(mirroring the source's loop structure, clipping and bounds checks), and
the state update folds those single-color stores over the buffer.
-/

namespace FastGraphics

-- ===========================================================================
-- Display configuration (display_config.h)
-- ===========================================================================

def LCD_H_RES : Int := 800
def LCD_V_RES : Int := 480

/-- RGB565 black: `#define COLOR_BLACK 0x0000` in `FastGraphics.h`. -/
def COLOR_BLACK : Nat := 0x0000

/-- RGB565 white: `#define COLOR_WHITE 0xFFFF` in `FastGraphics.h`. -/
def COLOR_WHITE : Nat := 0xFFFF

/-- The `ScreenRotation` enumeration of `FastGraphics.h`:
`ROTATION_0`/`ROTATION_180` are landscape, `ROTATION_90`/`ROTATION_270`
portrait. -/
inductive ScreenRotation where
  | ROTATION_0
  | ROTATION_90
  | ROTATION_180
  | ROTATION_270
deriving DecidableEq, Repr

open ScreenRotation

/-- Logical width/height as recomputed by `FastGraphics::setRotation`:
the physical pair for 0/180 and the swapped pair for 90/270. -/
def logicalDims : ScreenRotation → Int × Int
  | ROTATION_0 | ROTATION_180 => (LCD_H_RES, LCD_V_RES)
  | ROTATION_90 | ROTATION_270 => (LCD_V_RES, LCD_H_RES)

-- ===========================================================================
-- Engine state (the static variables of FastGraphics)
-- ===========================================================================

structure GfxState where
  frame_buffer : Int → Nat
  current_rotation : ScreenRotation
  display_width : Int
  display_height : Int
  cursor_x : Int
  cursor_y : Int
  text_color : Nat
  text_bg_color : Nat
  text_size : Nat
  text_wrap : Bool
  text_area_x : Int
  text_area_y : Int
  text_area_w : Int
  text_area_h : Int
  line_spacing : Int

/-- `FastGraphics::begin`: store the buffer reference and reset all state
to the documented defaults. -/
def begin (fb : Int → Nat) : GfxState where
  frame_buffer := fb
  current_rotation := ROTATION_0
  display_width := LCD_H_RES
  display_height := LCD_V_RES
  cursor_x := 0
  cursor_y := 0
  text_color := COLOR_WHITE
  text_bg_color := COLOR_BLACK
  text_size := 1
  text_wrap := true
  text_area_x := 0
  text_area_y := 0
  text_area_w := LCD_H_RES
  text_area_h := LCD_V_RES
  line_spacing := 2

/-- `FastGraphics::setRotation`: update the rotation, recompute the logical
dimensions, and set the text area width/height to the new dimensions
(the text area origin `text_area_x`/`text_area_y` is not touched). -/
def setRotation (s : GfxState) (rotation : ScreenRotation) : GfxState :=
  let dw := (logicalDims rotation).1
  let dh := (logicalDims rotation).2
  { s with current_rotation := rotation
           display_width := dw
           display_height := dh
           text_area_w := dw
           text_area_h := dh }

/-- `FastGraphics::transformCoordinates`: logical to physical coordinates. -/
def transformCoordinates (rot : ScreenRotation) (x y : Int) : Int × Int :=
  match rot with
  | ROTATION_0 => (x, y)
  | ROTATION_90 => (LCD_H_RES - 1 - y, x)
  | ROTATION_180 => (LCD_H_RES - 1 - x, LCD_V_RES - 1 - y)
  | ROTATION_270 => (y, LCD_V_RES - 1 - x)

-- ===========================================================================
-- Pixel and rectangle primitives as store traces
-- ===========================================================================

/-- The physical coordinates stored to by one `FastGraphics::pixel` call:
bounds check against the logical size, transform, then the physical
bounds check.  The result is `[]` (no store) or one coordinate pair. -/
def pixelWritesXY (rot : ScreenRotation) (dw dh x y : Int) : List (Int × Int) :=
  if 0 ≤ x ∧ x < dw ∧ 0 ≤ y ∧ y < dh then
    let p := transformCoordinates rot x y
    if 0 ≤ p.1 ∧ p.1 < LCD_H_RES ∧ 0 ≤ p.2 ∧ p.2 < LCD_V_RES then [p] else []
  else []

/-- The framebuffer indices stored to by one `pixel` call
(`frame_buffer[y * LCD_H_RES + x]`). -/
def pixelWrites (rot : ScreenRotation) (dw dh x y : Int) : List Int :=
  (pixelWritesXY rot dw dh x y).map fun p => p.2 * LCD_H_RES + p.1

/-- The framebuffer indices stored to by `FastGraphics::fillRect`:
validation, clipping to logical bounds, then either the per-pixel
rotated path or the direct row-major path for `ROTATION_0`. -/
def fillRectWrites (rot : ScreenRotation) (dw dh x y w h : Int) : List Int :=
  if x ≥ dw ∨ y ≥ dh ∨ w ≤ 0 ∨ h ≤ 0 then []
  else
    let w1 := if x < 0 then w + x else w
    let x1 := if x < 0 then 0 else x
    let h1 := if y < 0 then h + y else h
    let y1 := if y < 0 then 0 else y
    let w2 := if x1 + w1 > dw then dw - x1 else w1
    let h2 := if y1 + h1 > dh then dh - y1 else h1
    if rot ≠ ROTATION_0 then
      (List.range h2.toNat).flatMap fun (row : Nat) =>
        (List.range w2.toNat).flatMap fun (col : Nat) =>
          pixelWrites rot dw dh (x1 + (col : Int)) (y1 + (row : Int))
    else
      (List.range h2.toNat).flatMap fun (row : Nat) =>
        (List.range w2.toNat).map fun (col : Nat) =>
          (y1 + (row : Int)) * LCD_H_RES + (x1 + (col : Int))

/-- Fold a list of single-color stores over the framebuffer map. -/
def writeAll (fb : Int → Nat) (idxs : List Int) (c : Nat) : Int → Nat :=
  idxs.foldl (fun f i => fun j => if j = i then c else f j) fb

/-- `FastGraphics::pixel` as a state transformer. -/
def pixel (s : GfxState) (x y : Int) (color : Nat) : GfxState :=
  let fb := writeAll s.frame_buffer
    (pixelWrites s.current_rotation s.display_width s.display_height x y) color
  { s with frame_buffer := fb }

/-- `FastGraphics::fillRect` as a state transformer. -/
def fillRect (s : GfxState) (x y w h : Int) (color : Nat) : GfxState :=
  let fb := writeAll s.frame_buffer
    (fillRectWrites s.current_rotation s.display_width s.display_height x y w h) color
  { s with frame_buffer := fb }

/-- `FastGraphics::clear`: a full-logical-screen `fillRect`. -/
def clear (s : GfxState) (color : Nat) : GfxState :=
  fillRect s 0 0 s.display_width s.display_height color

-- ===========================================================================
-- Simple state setters
-- ===========================================================================

def setCursor (s : GfxState) (x y : Int) : GfxState :=
  { s with cursor_x := x, cursor_y := y }

def setTextColor (s : GfxState) (color bg : Nat) : GfxState :=
  { s with text_color := color, text_bg_color := bg }

/-- `FastGraphics::setTextSize`: only sizes 1..10 are accepted. -/
def setTextSize (s : GfxState) (size : Nat) : GfxState :=
  if 1 ≤ size ∧ size ≤ 10 then { s with text_size := size } else s

def setTextWrap (s : GfxState) (wrap : Bool) : GfxState :=
  { s with text_wrap := wrap }

/-- `FastGraphics::setLineSpacing`: only spacings 0..20 are accepted. -/
def setLineSpacing (s : GfxState) (spacing : Int) : GfxState :=
  if 0 ≤ spacing ∧ spacing ≤ 20 then { s with line_spacing := spacing } else s

def setTextArea (s : GfxState) (x y w h : Int) : GfxState :=
  { s with text_area_x := x, text_area_y := y, text_area_w := w, text_area_h := h }

/-- `FastGraphics::clearTextArea`: fill the text area with the background
color and put the cursor at its top-left corner. -/
def clearTextArea (s : GfxState) : GfxState :=
  let s1 := fillRect s s.text_area_x s.text_area_y s.text_area_w s.text_area_h
      s.text_bg_color
  { s1 with cursor_x := s.text_area_x, cursor_y := s.text_area_y }

/-- `FastGraphics::newLine`: carriage return to the text-area left edge,
advance by one character height plus line spacing, and clear-and-restart
when the next character row would run past the text area bottom. -/
def newLine (s : GfxState) : GfxState :=
  let s1 := { s with cursor_x := s.text_area_x,
                     cursor_y := s.cursor_y + (s.text_size : Int) * 8 + s.line_spacing }
  if s1.cursor_y + (s1.text_size : Int) * 8 > s1.text_area_y + s1.text_area_h then
    clearTextArea s1
  else s1

/-- `FastGraphics::advanceCursor`: advance and wrap at the text-area right
edge when wrapping is enabled. -/
def advanceCursor (s : GfxState) (char_width : Int) : GfxState :=
  let s1 := { s with cursor_x := s.cursor_x + char_width }
  if s1.text_wrap ∧ s1.cursor_x + char_width > s1.text_area_x + s1.text_area_w then
    newLine s1
  else s1

-- ===========================================================================
-- Midpoint circle outline (FastGraphics::circle)
-- ===========================================================================

/-- The eight symmetric offsets emitted per iteration of the midpoint loop,
in the order of the eight `pixel` calls in the source. -/
def octOffsets (x y : Int) : List (Int × Int) :=
  [(x, y), (-x, y), (x, -y), (-x, -y), (y, x), (-y, x), (y, -x), (-y, -x)]

/-- The `while (x <= y)` loop of `FastGraphics::circle`, written with a
fuel argument so that it stays kernel-computable.  Each iteration
increments `x` while `y` never increases, so the loop performs at most
`y0 + 1` iterations from `x = 0`; any fuel of at least `(y + 1 - x).toNat`
gives the exact trace (see `circleLoopF_stable`). -/
def circleLoopF : Nat → Int → Int → Int → List (Int × Int)
  | 0, _, _, _ => []
  | fuel + 1, x, y, decision =>
    if x ≤ y then
      octOffsets x y ++
        (if decision < 0 then circleLoopF fuel (x + 1) y (decision + 2 * x + 3)
         else circleLoopF fuel (x + 1) (y - 1) (decision + 2 * (x - y) + 5))
    else []

/-- Offsets from the center emitted by `FastGraphics::circle`, covering the
`radius <= 0` early return and the loop from `x=0, y=radius, d=1-radius`. -/
def circleOffsets (radius : Int) : List (Int × Int) :=
  if radius ≤ 0 then [] else circleLoopF (radius + 1).toNat 0 radius (1 - radius)

/-- The logical pixel positions that `circle` passes to `pixel`
(before any clipping). -/
def circlePoints (x0 y0 radius : Int) : List (Int × Int) :=
  (circleOffsets radius).map fun d => (x0 + d.1, y0 + d.2)

/-- Physical coordinates actually stored to by `FastGraphics::circle`
(after the per-pixel clipping in `pixel`). -/
def circleWritesXY (rot : ScreenRotation) (dw dh x0 y0 radius : Int) :
    List (Int × Int) :=
  (circleOffsets radius).flatMap fun d =>
    pixelWritesXY rot dw dh (x0 + d.1) (y0 + d.2)

/-- `FastGraphics::circle` as a state transformer. -/
def circle (s : GfxState) (x0 y0 radius : Int) (color : Nat) : GfxState :=
  let fb := writeAll s.frame_buffer
    ((circleWritesXY s.current_rotation s.display_width s.display_height x0 y0
        radius).map fun p => p.2 * LCD_H_RES + p.1) color
  { s with frame_buffer := fb }

-- ===========================================================================
-- Filled circle (FastGraphics::fillCircle)
-- ===========================================================================

/-- The `while (x < y)` loop of `FastGraphics::fillCircle`, as the list of
`fillRect` call arguments `(x, y, w, h)` it makes, in source order: on the
`else` branch the two rows at `y0 ± y` are filled before `y` is
decremented, and after `x` is incremented the two rows at `y0 ± x` are
filled only if `x <= y` still holds.  Fuel as for `circleLoopF`: at most
`radius` iterations occur. -/
def fillCircleLoopF (x0 y0 : Int) : Nat → Int → Int → Int → List (Int × Int × Int × Int)
  | 0, _, _, _ => []
  | fuel + 1, x, y, decision =>
    if x < y then
      if decision < 0 then
        (if x + 1 ≤ y then
          [(x0 - y, y0 + (x + 1), 2 * y + 1, 1), (x0 - y, y0 - (x + 1), 2 * y + 1, 1)]
         else []) ++
        fillCircleLoopF x0 y0 fuel (x + 1) y (decision + 2 * x + 3)
      else
        [(x0 - x, y0 + y, 2 * x + 1, 1), (x0 - x, y0 - y, 2 * x + 1, 1)] ++
        (if x + 1 ≤ y - 1 then
          [(x0 - (y - 1), y0 + (x + 1), 2 * (y - 1) + 1, 1),
           (x0 - (y - 1), y0 - (x + 1), 2 * (y - 1) + 1, 1)]
         else []) ++
        fillCircleLoopF x0 y0 fuel (x + 1) (y - 1) (decision + 2 * (x - y) + 5)
    else []

/-- `FastGraphics::fillCircle` as a state transformer: the `radius <= 0`
early return, the center row fill, then the scanline fills of the loop. -/
def fillCircle (s : GfxState) (x0 y0 radius : Int) (color : Nat) : GfxState :=
  if radius ≤ 0 then s
  else
    ((x0 - radius, y0, 2 * radius + 1, 1) ::
        fillCircleLoopF x0 y0 radius.toNat 0 radius (1 - radius)).foldl
      (fun t q => fillRect t q.1 q.2.1 q.2.2.1 q.2.2.2 color) s

-- ===========================================================================
-- Glyph renderer (font8x8_basic, FastGraphics::drawChar)
-- ===========================================================================

/-- The 8x8 pixel font bitmap for ASCII 0..127; one byte per row,
bit 0 is the leftmost pixel of the row. -/
def font8x8_basic : List (List Nat) := [
  [0x00, 0x00, 0x00, 0x00, 0x00, 0x00, 0x00, 0x00],
  [0x00, 0x00, 0x00, 0x00, 0x00, 0x00, 0x00, 0x00],
  [0x00, 0x00, 0x00, 0x00, 0x00, 0x00, 0x00, 0x00],
  [0x00, 0x00, 0x00, 0x00, 0x00, 0x00, 0x00, 0x00],
  [0x00, 0x00, 0x00, 0x00, 0x00, 0x00, 0x00, 0x00],
  [0x00, 0x00, 0x00, 0x00, 0x00, 0x00, 0x00, 0x00],
  [0x00, 0x00, 0x00, 0x00, 0x00, 0x00, 0x00, 0x00],
  [0x00, 0x00, 0x00, 0x00, 0x00, 0x00, 0x00, 0x00],
  [0x00, 0x00, 0x00, 0x00, 0x00, 0x00, 0x00, 0x00],
  [0x00, 0x00, 0x00, 0x00, 0x00, 0x00, 0x00, 0x00],
  [0x00, 0x00, 0x00, 0x00, 0x00, 0x00, 0x00, 0x00],
  [0x00, 0x00, 0x00, 0x00, 0x00, 0x00, 0x00, 0x00],
  [0x00, 0x00, 0x00, 0x00, 0x00, 0x00, 0x00, 0x00],
  [0x00, 0x00, 0x00, 0x00, 0x00, 0x00, 0x00, 0x00],
  [0x00, 0x00, 0x00, 0x00, 0x00, 0x00, 0x00, 0x00],
  [0x00, 0x00, 0x00, 0x00, 0x00, 0x00, 0x00, 0x00],
  [0x00, 0x00, 0x00, 0x00, 0x00, 0x00, 0x00, 0x00],
  [0x00, 0x00, 0x00, 0x00, 0x00, 0x00, 0x00, 0x00],
  [0x00, 0x00, 0x00, 0x00, 0x00, 0x00, 0x00, 0x00],
  [0x00, 0x00, 0x00, 0x00, 0x00, 0x00, 0x00, 0x00],
  [0x00, 0x00, 0x00, 0x00, 0x00, 0x00, 0x00, 0x00],
  [0x00, 0x00, 0x00, 0x00, 0x00, 0x00, 0x00, 0x00],
  [0x00, 0x00, 0x00, 0x00, 0x00, 0x00, 0x00, 0x00],
  [0x00, 0x00, 0x00, 0x00, 0x00, 0x00, 0x00, 0x00],
  [0x00, 0x00, 0x00, 0x00, 0x00, 0x00, 0x00, 0x00],
  [0x00, 0x00, 0x00, 0x00, 0x00, 0x00, 0x00, 0x00],
  [0x00, 0x00, 0x00, 0x00, 0x00, 0x00, 0x00, 0x00],
  [0x00, 0x00, 0x00, 0x00, 0x00, 0x00, 0x00, 0x00],
  [0x00, 0x00, 0x00, 0x00, 0x00, 0x00, 0x00, 0x00],
  [0x00, 0x00, 0x00, 0x00, 0x00, 0x00, 0x00, 0x00],
  [0x00, 0x00, 0x00, 0x00, 0x00, 0x00, 0x00, 0x00],
  [0x00, 0x00, 0x00, 0x00, 0x00, 0x00, 0x00, 0x00],
  [0x00, 0x00, 0x00, 0x00, 0x00, 0x00, 0x00, 0x00],
  [0x18, 0x3C, 0x3C, 0x18, 0x18, 0x00, 0x18, 0x00],
  [0x36, 0x36, 0x00, 0x00, 0x00, 0x00, 0x00, 0x00],
  [0x36, 0x36, 0x7F, 0x36, 0x7F, 0x36, 0x36, 0x00],
  [0x0C, 0x3E, 0x03, 0x1E, 0x30, 0x1F, 0x0C, 0x00],
  [0x00, 0x63, 0x33, 0x18, 0x0C, 0x66, 0x63, 0x00],
  [0x1C, 0x36, 0x1C, 0x6E, 0x3B, 0x33, 0x6E, 0x00],
  [0x06, 0x06, 0x03, 0x00, 0x00, 0x00, 0x00, 0x00],
  [0x18, 0x0C, 0x06, 0x06, 0x06, 0x0C, 0x18, 0x00],
  [0x06, 0x0C, 0x18, 0x18, 0x18, 0x0C, 0x06, 0x00],
  [0x00, 0x66, 0x3C, 0xFF, 0x3C, 0x66, 0x00, 0x00],
  [0x00, 0x0C, 0x0C, 0x3F, 0x0C, 0x0C, 0x00, 0x00],
  [0x00, 0x00, 0x00, 0x00, 0x00, 0x0C, 0x06, 0x00],
  [0x00, 0x00, 0x00, 0x3F, 0x00, 0x00, 0x00, 0x00],
  [0x00, 0x00, 0x00, 0x00, 0x00, 0x0C, 0x0C, 0x00],
  [0x60, 0x30, 0x18, 0x0C, 0x06, 0x03, 0x01, 0x00],
  [0x3E, 0x63, 0x73, 0x7B, 0x6F, 0x67, 0x3E, 0x00],
  [0x0C, 0x0E, 0x0C, 0x0C, 0x0C, 0x0C, 0x3F, 0x00],
  [0x1E, 0x33, 0x30, 0x1C, 0x06, 0x33, 0x3F, 0x00],
  [0x1E, 0x33, 0x30, 0x1C, 0x30, 0x33, 0x1E, 0x00],
  [0x38, 0x3C, 0x36, 0x33, 0x7F, 0x30, 0x78, 0x00],
  [0x3F, 0x03, 0x1F, 0x30, 0x30, 0x33, 0x1E, 0x00],
  [0x1C, 0x06, 0x03, 0x1F, 0x33, 0x33, 0x1E, 0x00],
  [0x3F, 0x33, 0x30, 0x18, 0x0C, 0x0C, 0x0C, 0x00],
  [0x1E, 0x33, 0x33, 0x1E, 0x33, 0x33, 0x1E, 0x00],
  [0x1E, 0x33, 0x33, 0x3E, 0x30, 0x18, 0x0E, 0x00],
  [0x00, 0x0C, 0x0C, 0x00, 0x00, 0x0C, 0x0C, 0x00],
  [0x00, 0x0C, 0x0C, 0x00, 0x00, 0x0C, 0x06, 0x00],
  [0x18, 0x0C, 0x06, 0x03, 0x06, 0x0C, 0x18, 0x00],
  [0x00, 0x00, 0x3F, 0x00, 0x00, 0x3F, 0x00, 0x00],
  [0x06, 0x0C, 0x18, 0x30, 0x18, 0x0C, 0x06, 0x00],
  [0x1E, 0x33, 0x30, 0x18, 0x0C, 0x00, 0x0C, 0x00],
  [0x3E, 0x63, 0x7B, 0x7B, 0x7B, 0x03, 0x1E, 0x00],
  [0x0C, 0x1E, 0x33, 0x33, 0x3F, 0x33, 0x33, 0x00],
  [0x3F, 0x66, 0x66, 0x3E, 0x66, 0x66, 0x3F, 0x00],
  [0x3C, 0x66, 0x03, 0x03, 0x03, 0x66, 0x3C, 0x00],
  [0x1F, 0x36, 0x66, 0x66, 0x66, 0x36, 0x1F, 0x00],
  [0x7F, 0x46, 0x16, 0x1E, 0x16, 0x46, 0x7F, 0x00],
  [0x7F, 0x46, 0x16, 0x1E, 0x16, 0x06, 0x0F, 0x00],
  [0x3C, 0x66, 0x03, 0x03, 0x73, 0x66, 0x7C, 0x00],
  [0x33, 0x33, 0x33, 0x3F, 0x33, 0x33, 0x33, 0x00],
  [0x1E, 0x0C, 0x0C, 0x0C, 0x0C, 0x0C, 0x1E, 0x00],
  [0x78, 0x30, 0x30, 0x30, 0x33, 0x33, 0x1E, 0x00],
  [0x67, 0x66, 0x36, 0x1E, 0x36, 0x66, 0x67, 0x00],
  [0x0F, 0x06, 0x06, 0x06, 0x46, 0x66, 0x7F, 0x00],
  [0x63, 0x77, 0x7F, 0x7F, 0x6B, 0x63, 0x63, 0x00],
  [0x63, 0x67, 0x6F, 0x7B, 0x73, 0x63, 0x63, 0x00],
  [0x1C, 0x36, 0x63, 0x63, 0x63, 0x36, 0x1C, 0x00],
  [0x3F, 0x66, 0x66, 0x3E, 0x06, 0x06, 0x0F, 0x00],
  [0x1E, 0x33, 0x33, 0x33, 0x3B, 0x1E, 0x38, 0x00],
  [0x3F, 0x66, 0x66, 0x3E, 0x36, 0x66, 0x67, 0x00],
  [0x1E, 0x33, 0x07, 0x0E, 0x38, 0x33, 0x1E, 0x00],
  [0x3F, 0x2D, 0x0C, 0x0C, 0x0C, 0x0C, 0x1E, 0x00],
  [0x33, 0x33, 0x33, 0x33, 0x33, 0x33, 0x3F, 0x00],
  [0x33, 0x33, 0x33, 0x33, 0x33, 0x1E, 0x0C, 0x00],
  [0x63, 0x63, 0x63, 0x6B, 0x7F, 0x77, 0x63, 0x00],
  [0x63, 0x63, 0x36, 0x1C, 0x1C, 0x36, 0x63, 0x00],
  [0x33, 0x33, 0x33, 0x1E, 0x0C, 0x0C, 0x1E, 0x00],
  [0x7F, 0x63, 0x31, 0x18, 0x4C, 0x66, 0x7F, 0x00],
  [0x1E, 0x06, 0x06, 0x06, 0x06, 0x06, 0x1E, 0x00],
  [0x03, 0x06, 0x0C, 0x18, 0x30, 0x60, 0x40, 0x00],
  [0x1E, 0x18, 0x18, 0x18, 0x18, 0x18, 0x1E, 0x00],
  [0x08, 0x1C, 0x36, 0x63, 0x00, 0x00, 0x00, 0x00],
  [0x00, 0x00, 0x00, 0x00, 0x00, 0x00, 0x00, 0xFF],
  [0x0C, 0x0C, 0x18, 0x00, 0x00, 0x00, 0x00, 0x00],
  [0x00, 0x00, 0x1E, 0x30, 0x3E, 0x33, 0x6E, 0x00],
  [0x07, 0x06, 0x06, 0x3E, 0x66, 0x66, 0x3B, 0x00],
  [0x00, 0x00, 0x1E, 0x33, 0x03, 0x33, 0x1E, 0x00],
  [0x38, 0x30, 0x30, 0x3e, 0x33, 0x33, 0x6E, 0x00],
  [0x00, 0x00, 0x1E, 0x33, 0x3f, 0x03, 0x1E, 0x00],
  [0x1C, 0x36, 0x06, 0x0f, 0x06, 0x06, 0x0F, 0x00],
  [0x00, 0x00, 0x6E, 0x33, 0x33, 0x3E, 0x30, 0x1F],
  [0x07, 0x06, 0x36, 0x6E, 0x66, 0x66, 0x67, 0x00],
  [0x0C, 0x00, 0x0E, 0x0C, 0x0C, 0x0C, 0x1E, 0x00],
  [0x30, 0x00, 0x30, 0x30, 0x30, 0x33, 0x33, 0x1E],
  [0x07, 0x06, 0x66, 0x36, 0x1E, 0x36, 0x67, 0x00],
  [0x0E, 0x0C, 0x0C, 0x0C, 0x0C, 0x0C, 0x1E, 0x00],
  [0x00, 0x00, 0x33, 0x7F, 0x7F, 0x6B, 0x63, 0x00],
  [0x00, 0x00, 0x1F, 0x33, 0x33, 0x33, 0x33, 0x00],
  [0x00, 0x00, 0x1E, 0x33, 0x33, 0x33, 0x1E, 0x00],
  [0x00, 0x00, 0x3B, 0x66, 0x66, 0x3E, 0x06, 0x0F],
  [0x00, 0x00, 0x6E, 0x33, 0x33, 0x3E, 0x30, 0x78],
  [0x00, 0x00, 0x3B, 0x6E, 0x66, 0x06, 0x0F, 0x00],
  [0x00, 0x00, 0x3E, 0x03, 0x1E, 0x30, 0x1F, 0x00],
  [0x08, 0x0C, 0x3E, 0x0C, 0x0C, 0x2C, 0x18, 0x00],
  [0x00, 0x00, 0x33, 0x33, 0x33, 0x33, 0x6E, 0x00],
  [0x00, 0x00, 0x33, 0x33, 0x33, 0x1E, 0x0C, 0x00],
  [0x00, 0x00, 0x63, 0x6B, 0x7F, 0x7F, 0x36, 0x00],
  [0x00, 0x00, 0x63, 0x36, 0x1C, 0x36, 0x63, 0x00],
  [0x00, 0x00, 0x33, 0x33, 0x33, 0x3E, 0x30, 0x1F],
  [0x00, 0x00, 0x3F, 0x19, 0x0C, 0x26, 0x3F, 0x00],
  [0x38, 0x0C, 0x0C, 0x07, 0x0C, 0x0C, 0x38, 0x00],
  [0x18, 0x18, 0x18, 0x00, 0x18, 0x18, 0x18, 0x00],
  [0x07, 0x0C, 0x0C, 0x38, 0x0C, 0x0C, 0x07, 0x00],
  [0x6E, 0x3B, 0x00, 0x00, 0x00, 0x00, 0x00, 0x00],
  [0x00, 0x00, 0x00, 0x00, 0x00, 0x00, 0x00, 0x00]
]

/-- `FastGraphics::drawChar`: reject codes outside 0..127, then blit the
8x8 pattern, painting set bits in `color` and clear bits in `bg` unless
`bg == color`; at `size == 1` through single pixels, otherwise through
`size`-square `fillRect` blocks. -/
def drawChar (s : GfxState) (x y : Int) (c : Int) (color bg : Nat) (size : Nat) :
    GfxState :=
  if c < 0 ∨ 127 < c then s
  else
    let char_data := font8x8_basic.getD c.toNat []
    if size = 1 then
      (List.range 8).foldl (fun s1 (row : Nat) =>
        let ln := char_data.getD row 0
        (List.range 8).foldl (fun s2 (col : Nat) =>
          if ln.testBit col then pixel s2 (x + (col : Int)) (y + (row : Int)) color
          else if bg ≠ color then pixel s2 (x + (col : Int)) (y + (row : Int)) bg
          else s2) s1) s
    else
      (List.range 8).foldl (fun s1 (row : Nat) =>
        let ln := char_data.getD row 0
        (List.range 8).foldl (fun s2 (col : Nat) =>
          if ln.testBit col then
            fillRect s2 (x + (col : Int) * (size : Int)) (y + (row : Int) * (size : Int))
              (size : Int) (size : Int) color
          else if bg ≠ color then
            fillRect s2 (x + (col : Int) * (size : Int)) (y + (row : Int) * (size : Int))
              (size : Int) (size : Int) bg
          else s2) s1) s

-- ===========================================================================
-- Cursor-stream print path (FastGraphics::print)
-- ===========================================================================

/-- One step of the cursor-stream print loop, processing a single byte of
the input (a C `char`, hence a signed value in -128..127): newline and
carriage return handling, then the `0 <= c <= 127` glyph path; any other
byte falls through with no effect. -/
def printChar (s : GfxState) (c : Int) : GfxState :=
  if c = 10 then newLine s
  else if c = 13 then { s with cursor_x := s.text_area_x }
  else if 0 ≤ c ∧ c ≤ 127 then
    advanceCursor
      (drawChar s s.cursor_x s.cursor_y c s.text_color s.text_bg_color s.text_size)
      ((s.text_size : Int) * 8)
  else s

/-- `FastGraphics::print(const char*)`: the loop over the string bytes
(the list holds the bytes up to, and excluding, the NUL terminator). -/
def printStr (s : GfxState) (str : List Int) : GfxState :=
  str.foldl printChar s

-- ===========================================================================
-- Word-wrap path (FastGraphics::printWrapped)
-- ===========================================================================

/-- The capacity of the local `char word_buffer[50]` of `printWrapped`:
valid indices are 0..49. -/
def WORD_BUFFER_SIZE : Nat := 50

/-- The observable trace of `printWrapped`: the layout cursor, the running
word length, every store into `word_buffer` as an (index, byte) pair, and
the words handed to the glyph path together with their positions. -/
structure WrapTrace where
  current_x : Int
  current_y : Int
  word_len : Nat
  word : List Int
  buffer_writes : List (Nat × Int)
  drawn : List (Int × Int × List Int)
deriving DecidableEq, Repr

/-- The character loop of `FastGraphics::printWrapped`.  A word is flushed
on a space, newline, tab, or when the current byte is the last one of the
string (`*(str + 1) == 0`); on the flush path a non-separator final byte
is stored into the buffer unconditionally, and the NUL terminator is then
stored at index `word_len`; on the accumulation path a byte is stored only
while `word_len < 49`.  (The source also keeps a `word_start_x` variable,
which is written but never read, and is omitted here.) -/
def printWrappedLoop (x maxWidth : Int) (size : Nat) (line_height : Int) :
    List Int → WrapTrace → WrapTrace
  | [], t => t
  | c :: rest, t =>
    let t1 :=
      if c = 32 ∨ c = 10 ∨ c = 9 ∨ rest = [] then
        let ta :=
          if ¬(c = 32 ∨ c = 10 ∨ c = 9) then
            { t with buffer_writes := t.buffer_writes ++ [(t.word_len, c)]
                     word := t.word ++ [c]
                     word_len := t.word_len + 1 }
          else t
        let tb := { ta with buffer_writes := ta.buffer_writes ++ [(ta.word_len, 0)] }
        let word_width : Int := (tb.word_len : Int) * size * 8
        let tc :=
          if tb.current_x + word_width > x + maxWidth ∧ tb.current_x > x then
            { tb with current_x := x, current_y := tb.current_y + line_height }
          else tb
        let td := { tc with drawn := tc.drawn ++ [(tc.current_x, tc.current_y, tc.word)]
                            current_x := tc.current_x + word_width }
        let te :=
          if c = 32 then { td with current_x := td.current_x + (size : Int) * 8 }
          else if c = 10 then
            { td with current_x := x, current_y := td.current_y + line_height }
          else if c = 9 then { td with current_x := td.current_x + (size : Int) * 8 * 4 }
          else td
        { te with word_len := 0, word := [] }
      else
        if t.word_len < 49 then
          { t with buffer_writes := t.buffer_writes ++ [(t.word_len, c)]
                   word := t.word ++ [c]
                   word_len := t.word_len + 1 }
        else t
    printWrappedLoop x maxWidth size line_height rest t1

/-- `FastGraphics::printWrapped` as its buffer/layout trace: starts at
`(x, y)` with an empty word buffer; `line_height = size*8 + line_spacing`. -/
def printWrappedTrace (x y maxWidth : Int) (str : List Int) (size : Nat)
    (line_spacing : Int) : WrapTrace :=
  printWrappedLoop x maxWidth size ((size : Int) * 8 + line_spacing) str
    { current_x := x, current_y := y, word_len := 0, word := [],
      buffer_writes := [], drawn := [] }

-- ===========================================================================
-- Concrete states for counterexamples and witnesses
-- ===========================================================================

/-- An all-black initial framebuffer. -/
def fb0 : Int → Nat := fun _ => 0

/-- State after `begin`, a `setTextArea(100, 50, 200, 100)` and a
`setRotation(ROTATION_90)`. -/
def c1State : GfxState :=
  setRotation (setTextArea (begin fb0) 100 50 200 100) ROTATION_90

/-- State after `begin`, restricting the text area to a 20-pixel tall band
and placing the cursor at `y = 8`: one `newLine` advances the cursor to
`y = 18`, which is within the text area bottom edge `20`, and yet the
source clears the area and resets the cursor because `18 + 8 > 20`. -/
def c4State : GfxState :=
  setCursor (setTextArea (begin fb0) 0 0 800 20) 0 8

/-- The `begin` state itself, used to instantiate proved theorems at a
concrete reachable state. -/
def s0 : GfxState := begin fb0

/-- The `begin` state rotated to 90 degrees, for instantiating theorems at
a rotated reachable state. -/
def s90 : GfxState := setRotation (begin fb0) ROTATION_90

/-- A single word of fifty lowercase letters: the shortest kind of input on
which the `printWrapped` flush path stores one byte past `word_buffer`. -/
def fiftyAs : List Int := List.replicate 50 97

-- ===========================================================================
-- Basic lemmas about the store-trace semantics
-- ===========================================================================

/-- A fold of single-color stores acts pointwise: a cell holds the new color
exactly when its index occurs in the store list. -/
theorem writeAll_apply (fb : Int → Nat) (idxs : List Int) (c : Nat) (j : Int) :
    writeAll fb idxs c j = if j ∈ idxs then c else fb j := by
  induction idxs generalizing fb with
  | nil => simp [writeAll]
  | cons i rest ih =>
    show writeAll (fun j2 => if j2 = i then c else fb j2) rest c j = _
    rw [ih]
    by_cases h1 : j ∈ rest <;> by_cases h2 : j = i <;> simp [h1, h2]

/-- Cell-level reading of `fillRect`. -/
theorem fillRect_apply (s : GfxState) (x y w h : Int) (c : Nat) (j : Int) :
    (fillRect s x y w h c).frame_buffer j =
      if j ∈ fillRectWrites s.current_rotation s.display_width s.display_height
          x y w h then c
      else s.frame_buffer j := by
  simp only [fillRect]
  exact writeAll_apply s.frame_buffer _ c j

/-- A `fillRect` whose store trace is empty leaves the state untouched. -/
theorem fillRect_of_writes_nil (s : GfxState) (x y w h : Int) (c : Nat)
    (hnil : fillRectWrites s.current_rotation s.display_width s.display_height
        x y w h = []) :
    fillRect s x y w h c = s := by
  simp only [fillRect]
  rw [hnil]
  rfl


-- ===========================================================================
-- C1: setRotation and the text area
-- ===========================================================================

/-- C1 counterexample: after `setTextArea(100, 50, 200, 100)` followed by
`setRotation(ROTATION_90)`, the logical dimensions and the text area
width/height are updated, but the text area origin stays at (100, 50): the
active text area does not equal the full new logical rectangle, contrary
to the claim. -/
theorem c1_counterexample :
    c1State.display_width = 480 ∧ c1State.display_height = 800 ∧
    c1State.text_area_w = 480 ∧ c1State.text_area_h = 800 ∧
    c1State.text_area_x = 100 ∧ c1State.text_area_y = 50 ∧
    ¬(c1State.text_area_x = 0 ∧ c1State.text_area_y = 0) := by
  decide

/-- C1 amended: every `setRotation(r)` call sets the logical width/height to
the physical pair (800, 480) for 0/180 and the swapped pair (480, 800)
for 90/270, and sets the text area width/height to the new logical
dimensions, while the text area origin keeps its previous value. -/
theorem c1_setRotation_dims (s : GfxState) (rot : ScreenRotation) :
    ((setRotation s rot).display_width, (setRotation s rot).display_height)
        = logicalDims rot ∧
    (setRotation s rot).text_area_w = (setRotation s rot).display_width ∧
    (setRotation s rot).text_area_h = (setRotation s rot).display_height ∧
    (setRotation s rot).text_area_x = s.text_area_x ∧
    (setRotation s rot).text_area_y = s.text_area_y := by
  cases rot <;> exact ⟨rfl, rfl, rfl, rfl, rfl⟩

-- ===========================================================================
-- C6: silent defensive no-ops on invalid parameters
-- ===========================================================================

/-- C6: invalid parameters are silent no-ops: `fillRect` with non-positive
width or height, `circle`/`fillCircle` with non-positive radius, and
`drawChar` with a code outside 0..127 leave the whole state unchanged;
`setTextSize` outside 1..10 and `setLineSpacing` outside 0..20 leave the
state (in particular the respective parameter) unchanged. -/
theorem c6_invalid_input_noop :
    (∀ (s : GfxState) (x y w h : Int) (c : Nat),
        w ≤ 0 ∨ h ≤ 0 → fillRect s x y w h c = s) ∧
    (∀ (s : GfxState) (x0 y0 r : Int) (c : Nat), r ≤ 0 → circle s x0 y0 r c = s) ∧
    (∀ (s : GfxState) (x0 y0 r : Int) (c : Nat), r ≤ 0 → fillCircle s x0 y0 r c = s) ∧
    (∀ (s : GfxState) (x y ch : Int) (fg bg sz : Nat),
        ch < 0 ∨ 127 < ch → drawChar s x y ch fg bg sz = s) ∧
    (∀ (s : GfxState) (sz : Nat), sz < 1 ∨ 10 < sz → setTextSize s sz = s) ∧
    (∀ (s : GfxState) (sp : Int), sp < 0 ∨ 20 < sp → setLineSpacing s sp = s) := by
  refine ⟨?_, ?_, ?_, ?_, ?_, ?_⟩
  · intro s x y w h c hwh
    apply fillRect_of_writes_nil
    unfold fillRectWrites
    rw [if_pos]
    tauto
  · intro s x0 y0 r c hr
    simp only [circle, circleWritesXY, circleOffsets, if_pos hr]
    rfl
  · intro s x0 y0 r c hr
    simp only [fillCircle, if_pos hr]
  · intro s x y ch fg bg sz hch
    simp only [drawChar, if_pos hch]
  · intro s sz hsz
    simp only [setTextSize]
    rw [if_neg (by omega)]
  · intro s sp hsp
    simp only [setLineSpacing]
    rw [if_neg (by omega)]

/-- C6 witness: the no-op conclusions at concrete invalid inputs. -/
theorem c6_witness :
    fillRect s0 1 1 0 5 7 = s0 ∧ circle s0 5 5 0 7 = s0 ∧
    fillCircle s0 5 5 (-1) 7 = s0 ∧ drawChar s0 0 0 (-2) 1 2 1 = s0 ∧
    setTextSize s0 11 = s0 ∧ setLineSpacing s0 21 = s0 :=
  ⟨c6_invalid_input_noop.1 s0 1 1 0 5 7 (Or.inl (by decide)),
   c6_invalid_input_noop.2.1 s0 5 5 0 7 (by decide),
   c6_invalid_input_noop.2.2.1 s0 5 5 (-1) 7 (by decide),
   c6_invalid_input_noop.2.2.2.1 s0 0 0 (-2) 1 2 1 (Or.inl (by decide)),
   c6_invalid_input_noop.2.2.2.2.1 s0 11 (Or.inr (by decide)),
   c6_invalid_input_noop.2.2.2.2.2 s0 21 (Or.inr (by decide))⟩

-- ===========================================================================
-- C7: the 90-then-270 composition on the asymmetric panel
-- ===========================================================================

/-- C7: composing the 90-degree transform with the 270-degree transform
moves every logical point (x, y) to (x, y + Hp - Wp) = (x, y - 320), which
differs from (x, y) for every point since the panel is not square. -/
theorem c7_rot90_then_rot270 (x y : Int) :
    transformCoordinates ROTATION_270 (transformCoordinates ROTATION_90 x y).1
        (transformCoordinates ROTATION_90 x y).2 = (x, y + LCD_V_RES - LCD_H_RES) ∧
    transformCoordinates ROTATION_270 (transformCoordinates ROTATION_90 x y).1
        (transformCoordinates ROTATION_90 x y).2 ≠ (x, y) := by
  refine ⟨?_, ?_⟩ <;>
    simp [transformCoordinates, LCD_H_RES, LCD_V_RES, Prod.ext_iff] <;> omega

-- ===========================================================================
-- C10: bytes outside 0..127 in the print path
-- ===========================================================================

/-- C10: a byte that is negative as a signed char (hence outside 0..127 and
neither a newline nor a carriage return) is skipped entirely by the
cursor-stream print path: the single-char step leaves the state unchanged,
and removing such a byte from a printed string does not change the
result. -/
theorem c10_out_of_range_bytes_skipped :
    (∀ (s : GfxState) (c : Int), c < 0 → printChar s c = s) ∧
    (∀ (s : GfxState) (l1 l2 : List Int) (c : Int), c < 0 →
        printStr s (l1 ++ c :: l2) = printStr s (l1 ++ l2)) := by
  have h1 : ∀ (s : GfxState) (c : Int), c < 0 → printChar s c = s := by
    intro s c hc
    unfold printChar
    rw [if_neg (by omega), if_neg (by omega), if_neg (by omega)]
  refine ⟨h1, ?_⟩
  intro s l1 l2 c hc
  unfold printStr
  rw [List.foldl_append, List.foldl_append, List.foldl_cons, h1 _ c hc]

/-- C10 witness: the byte -1 (0xFF as unsigned) between and around printable
bytes has no effect. -/
theorem c10_witness :
    printChar s0 (-1) = s0 ∧
    printStr s0 ([65] ++ (-1) :: [66]) = printStr s0 ([65] ++ [66]) :=
  ⟨c10_out_of_range_bytes_skipped.1 s0 (-1) (by decide),
   c10_out_of_range_bytes_skipped.2 s0 [65] [66] (-1) (by decide)⟩

-- ===========================================================================
-- C3: the printWrapped word buffer
-- ===========================================================================

/-- C3: on a single word of fifty characters the end-of-string flush of
`printWrapped` first stores the fiftieth character at index 49 (so the
character beyond the 49-character capacity is not dropped) and then stores
the NUL terminator at index 50 — one cell past the end of the 50-byte
`word_buffer`.  So not every buffer store stays within bounds. -/
theorem c3_buffer_overflow :
    (49, 97) ∈ (printWrappedTrace 10 10 780 fiftyAs 1 2).buffer_writes ∧
    (50, 0) ∈ (printWrappedTrace 10 10 780 fiftyAs 1 2).buffer_writes ∧
    ¬(∀ p ∈ (printWrappedTrace 10 10 780 fiftyAs 1 2).buffer_writes,
        p.1 < WORD_BUFFER_SIZE) := by
  set_option maxRecDepth 8000 in decide

-- ===========================================================================
-- Characterization of the unrotated fillRect fast path
-- ===========================================================================

/-- Membership in a row-major rectangle trace with nonnegative clipped
origin. -/
theorem mem_rows_cols (x1 y1 w2 h2 px py : Int) (hx1 : 0 ≤ x1)
    (hxw : x1 + w2 ≤ 800) (hx0 : 0 ≤ px) (hx : px < 800) :
    ((py * 800 + px) ∈ (List.range h2.toNat).flatMap fun (row : Nat) =>
        (List.range w2.toNat).map fun (col : Nat) =>
          (y1 + (row : Int)) * 800 + (x1 + (col : Int))) ↔
      (x1 ≤ px ∧ px < x1 + w2 ∧ y1 ≤ py ∧ py < y1 + h2) := by
  constructor
  · intro hmem
    obtain ⟨row, hrow, hinner⟩ := List.mem_flatMap.mp hmem
    obtain ⟨col, hcol, heq⟩ := List.mem_map.mp hinner
    rw [List.mem_range] at hrow hcol
    omega
  · rintro ⟨ha, hb, hc, hd⟩
    refine List.mem_flatMap.mpr
      ⟨(py - y1).toNat, ?_, List.mem_map.mpr ⟨(px - x1).toNat, ?_, ?_⟩⟩
    · rw [List.mem_range]; omega
    · rw [List.mem_range]; omega
    · omega

/-- A cell index `py*800 + px` (with `(px, py)` a physical coordinate) is in
the `ROTATION_0` store trace of `fillRect` exactly when `(px, py)` lies in
the requested rectangle clipped to the 800x480 screen. -/
theorem mem_fillRectWrites_r0 (x y w h px py : Int)
    (hx0 : 0 ≤ px) (hx : px < 800) (hy0 : 0 ≤ py) (hy : py < 480) :
    (py * 800 + px) ∈ fillRectWrites ROTATION_0 800 480 x y w h ↔
      (max x 0 ≤ px ∧ px < min (x + w) 800 ∧ max y 0 ≤ py ∧ py < min (y + h) 480) := by
  simp only [fillRectWrites, LCD_H_RES, LCD_V_RES]
  by_cases hg : x ≥ 800 ∨ y ≥ 480 ∨ w ≤ 0 ∨ h ≤ 0
  · rw [if_pos hg]
    simp only [List.not_mem_nil, false_iff]
    omega
  · rw [if_neg hg, if_neg (by simp)]
    set w1 := (if x < 0 then w + x else w) with hw1def
    set x1 := (if x < 0 then (0 : Int) else x) with hx1def
    set h1 := (if y < 0 then h + y else h) with hh1def
    set y1 := (if y < 0 then (0 : Int) else y) with hy1def
    set w2 := (if x1 + w1 > 800 then 800 - x1 else w1) with hw2def
    set h2 := (if y1 + h1 > 480 then 480 - y1 else h1) with hh2def
    have e1 : x1 = max x 0 := by rw [hx1def]; split <;> omega
    have e2 : x1 + w2 = min (x + w) 800 := by
      rw [hw2def, hw1def, hx1def]; split_ifs <;> omega
    have e3 : y1 = max y 0 := by rw [hy1def]; split <;> omega
    have e4 : y1 + h2 = min (y + h) 480 := by
      rw [hh2def, hh1def, hy1def]; split_ifs <;> omega
    rw [mem_rows_cols x1 y1 w2 h2 px py (by omega) (by omega) hx0 hx]
    omega

/-- Cell-level specification of the unrotated `fillRect`: a physical cell
gets the color exactly when it lies in the clipped rectangle, and keeps
its old value otherwise. -/
theorem fillRect_r0_cell (s : GfxState) (x y w h : Int) (c : Nat)
    (hrot : s.current_rotation = ROTATION_0)
    (hdw : s.display_width = 800) (hdh : s.display_height = 480)
    (px py : Int) (hx0 : 0 ≤ px) (hx : px < 800) (hy0 : 0 ≤ py) (hy : py < 480) :
    (fillRect s x y w h c).frame_buffer (py * 800 + px) =
      if max x 0 ≤ px ∧ px < min (x + w) 800 ∧ max y 0 ≤ py ∧ py < min (y + h) 480
      then c else s.frame_buffer (py * 800 + px) := by
  rw [fillRect_apply, hrot, hdw, hdh]
  by_cases hmem : (py * 800 + px) ∈ fillRectWrites ROTATION_0 800 480 x y w h
  · rw [if_pos hmem,
      if_pos ((mem_fillRectWrites_r0 x y w h px py hx0 hx hy0 hy).mp hmem)]
  · rw [if_neg hmem,
      if_neg (fun hc => hmem ((mem_fillRectWrites_r0 x y w h px py hx0 hx hy0 hy).mpr hc))]

-- ===========================================================================
-- C5: clipping of a rectangle with negative origin
-- ===========================================================================

/-- C5: at rotation 0 on the 800x480 panel, `fillRect(-5, -5, 20, 20, C)`
paints exactly the physical cells with `px < 15` and `py < 15` and leaves
every other cell unchanged. -/
theorem c5_fillRect_negative_origin (s : GfxState) (c : Nat)
    (hrot : s.current_rotation = ROTATION_0)
    (hdw : s.display_width = 800) (hdh : s.display_height = 480)
    (px py : Int) (hx0 : 0 ≤ px) (hx : px < 800) (hy0 : 0 ≤ py) (hy : py < 480) :
    (fillRect s (-5) (-5) 20 20 c).frame_buffer (py * 800 + px) =
      if px < 15 ∧ py < 15 then c else s.frame_buffer (py * 800 + px) := by
  rw [fillRect_r0_cell s (-5) (-5) 20 20 c hrot hdw hdh px py hx0 hx hy0 hy]
  have hcond : (max (-5) 0 ≤ px ∧ px < min ((-5) + 20) 800 ∧
      max (-5) 0 ≤ py ∧ py < min ((-5) + 20) 480) ↔ (px < 15 ∧ py < 15) := by
    omega
  simp only [hcond]

/-- C5 witness: cell (5, 3) of the clipped region gets the color. -/
theorem c5_witness :
    (fillRect s0 (-5) (-5) 20 20 7).frame_buffer (3 * 800 + 5) = 7 := by
  have h := c5_fillRect_negative_origin s0 7 rfl rfl rfl 5 3
    (by decide) (by decide) (by decide) (by decide)
  simpa using h

-- ===========================================================================
-- C2: clear reaches every physical cell under every rotation
-- ===========================================================================

/-- A single `pixel` call whose logical input is in bounds and transforms
onto the physical cell `(px, py)` stores to that cell. -/
theorem mem_pixelWrites_of (rot : ScreenRotation) (dw dh lx ly px py : Int)
    (hl : 0 ≤ lx ∧ lx < dw ∧ 0 ≤ ly ∧ ly < dh)
    (ht : transformCoordinates rot lx ly = (px, py))
    (hp : 0 ≤ px ∧ px < 800 ∧ 0 ≤ py ∧ py < 480) :
    (py * 800 + px) ∈ pixelWrites rot dw dh lx ly := by
  simp only [pixelWrites, pixelWritesXY, LCD_H_RES, LCD_V_RES]
  rw [if_pos hl, ht]
  dsimp only
  rw [if_pos hp]
  simp

/-- C2: `clear(C)` stores `C` to every one of the 800x480 physical cells,
for every rotation state whose logical dimensions agree with the rotation
(as maintained by `begin` and `setRotation`): under the rotated per-pixel
path the coordinate transform reaches each physical cell. -/
theorem c2_clear_paints_every_cell (s : GfxState) (c : Nat)
    (hd : (s.display_width, s.display_height) = logicalDims s.current_rotation)
    (px py : Int) (hx0 : 0 ≤ px) (hx : px < 800) (hy0 : 0 ≤ py) (hy : py < 480) :
    (clear s c).frame_buffer (py * 800 + px) = c := by
  unfold clear
  rw [fillRect_apply]
  rcases hrot : s.current_rotation with _ | _ | _ | _
  all_goals rw [hrot] at hd
  all_goals simp only [logicalDims, Prod.mk.injEq, LCD_H_RES, LCD_V_RES] at hd
  all_goals obtain ⟨hdw, hdh⟩ := hd
  all_goals rw [hdw, hdh]
  · rw [if_pos ((mem_fillRectWrites_r0 0 0 800 480 px py hx0 hx hy0 hy).mpr (by omega))]
  · have hmem : (py * 800 + px) ∈ fillRectWrites ROTATION_90 480 800 0 0 480 800 := by
      simp only [fillRectWrites, LCD_H_RES, LCD_V_RES]
      rw [if_neg (by omega), if_pos (by decide)]
      norm_num
      refine ⟨(799 - px).toNat, by omega, py.toNat, by omega, ?_⟩
      exact mem_pixelWrites_of ROTATION_90 480 800 _ _ px py (by omega)
          (by simp only [transformCoordinates, LCD_H_RES, Prod.mk.injEq]; omega)
          (by omega)
    rw [if_pos hmem]
  · have hmem : (py * 800 + px) ∈ fillRectWrites ROTATION_180 800 480 0 0 800 480 := by
      simp only [fillRectWrites, LCD_H_RES, LCD_V_RES]
      rw [if_neg (by omega), if_pos (by decide)]
      norm_num
      refine ⟨(479 - py).toNat, by omega, (799 - px).toNat, by omega, ?_⟩
      exact mem_pixelWrites_of ROTATION_180 800 480 _ _ px py (by omega)
          (by simp only [transformCoordinates, LCD_H_RES, LCD_V_RES, Prod.mk.injEq]; omega)
          (by omega)
    rw [if_pos hmem]
  · have hmem : (py * 800 + px) ∈ fillRectWrites ROTATION_270 480 800 0 0 480 800 := by
      simp only [fillRectWrites, LCD_H_RES, LCD_V_RES]
      rw [if_neg (by omega), if_pos (by decide)]
      norm_num
      refine ⟨px.toNat, by omega, (479 - py).toNat, by omega, ?_⟩
      exact mem_pixelWrites_of ROTATION_270 480 800 _ _ px py (by omega)
          (by simp only [transformCoordinates, LCD_V_RES, Prod.mk.injEq]; omega)
          (by omega)
    rw [if_pos hmem]

/-- C2 witness: after rotating to 90 degrees, clearing with color 5 sets the
physical cell (456, 123). -/
theorem c2_witness : (clear s90 5).frame_buffer (123 * 800 + 456) = 5 :=
  c2_clear_paints_every_cell s90 5 rfl 456 123
    (by decide) (by decide) (by decide) (by decide)

-- ===========================================================================
-- C9: every framebuffer store stays inside the 800*480 buffer
-- ===========================================================================

/-- Every store of a single `pixel` call lands in `[0, 800*480)`: the
physical bounds check runs after the transform, whatever the logical
dimensions are. -/
theorem pixelWrites_bounds (rot : ScreenRotation) (dw dh x y : Int) :
    ∀ i ∈ pixelWrites rot dw dh x y, 0 ≤ i ∧ i < 800 * 480 := by
  intro i hi
  simp only [pixelWrites, pixelWritesXY, LCD_H_RES, LCD_V_RES] at hi
  split_ifs at hi with h1 h2
  · simp only [List.map_cons, List.map_nil, List.mem_singleton] at hi
    omega
  · simp at hi
  · simp at hi

/-- C9: every framebuffer store of the two primitives that write
(`pixel`, to which `line`, `circle` and `drawChar` bottom out, and
`fillRect`, to which `clear` and `fillCircle` bottom out) has an index in
`[0, 800*480)`.  For `fillRect` the logical dimensions are the ones
`setRotation` maintains for the current rotation; the unrotated fast path
stays in bounds because of the clipping alone. -/
theorem c9_stores_in_bounds :
    (∀ (rot : ScreenRotation) (dw dh x y : Int), ∀ i ∈ pixelWrites rot dw dh x y,
        0 ≤ i ∧ i < 800 * 480) ∧
    (∀ (rot : ScreenRotation) (x y w h : Int),
        ∀ i ∈ fillRectWrites rot (logicalDims rot).1 (logicalDims rot).2 x y w h,
        0 ≤ i ∧ i < 800 * 480) := by
  refine ⟨pixelWrites_bounds, ?_⟩
  intro rot x y w h i hi
  rcases rot with _ | _ | _ | _
  case ROTATION_0 =>
    simp only [fillRectWrites, logicalDims, LCD_H_RES, LCD_V_RES] at hi
    by_cases hg : x ≥ 800 ∨ y ≥ 480 ∨ w ≤ 0 ∨ h ≤ 0
    · rw [if_pos hg] at hi
      simp at hi
    · rw [if_neg hg, if_neg (by simp)] at hi
      set w1 := (if x < 0 then w + x else w) with hw1def
      set x1 := (if x < 0 then (0 : Int) else x) with hx1def
      set h1 := (if y < 0 then h + y else h) with hh1def
      set y1 := (if y < 0 then (0 : Int) else y) with hy1def
      set w2 := (if x1 + w1 > 800 then 800 - x1 else w1) with hw2def
      set h2 := (if y1 + h1 > 480 then 480 - y1 else h1) with hh2def
      have e1 : x1 = max x 0 := by rw [hx1def]; split <;> omega
      have e2 : x1 + w2 = min (x + w) 800 := by
        rw [hw2def, hw1def, hx1def]; split_ifs <;> omega
      have e3 : y1 = max y 0 := by rw [hy1def]; split <;> omega
      have e4 : y1 + h2 = min (y + h) 480 := by
        rw [hh2def, hh1def, hy1def]; split_ifs <;> omega
      obtain ⟨row, hrow, hin⟩ := List.mem_flatMap.mp hi
      obtain ⟨col, hcol, heq⟩ := List.mem_map.mp hin
      rw [List.mem_range] at hrow hcol
      omega
  case ROTATION_90 =>
    simp only [fillRectWrites, logicalDims, LCD_H_RES, LCD_V_RES] at hi
    by_cases hg : x ≥ 480 ∨ y ≥ 800 ∨ w ≤ 0 ∨ h ≤ 0
    · rw [if_pos hg] at hi
      simp at hi
    · rw [if_neg hg, if_pos (by decide)] at hi
      obtain ⟨row, hrow, hin⟩ := List.mem_flatMap.mp hi
      obtain ⟨col, hcol, hmem⟩ := List.mem_flatMap.mp hin
      exact pixelWrites_bounds _ _ _ _ _ i hmem
  case ROTATION_180 =>
    simp only [fillRectWrites, logicalDims, LCD_H_RES, LCD_V_RES] at hi
    by_cases hg : x ≥ 800 ∨ y ≥ 480 ∨ w ≤ 0 ∨ h ≤ 0
    · rw [if_pos hg] at hi
      simp at hi
    · rw [if_neg hg, if_pos (by decide)] at hi
      obtain ⟨row, hrow, hin⟩ := List.mem_flatMap.mp hi
      obtain ⟨col, hcol, hmem⟩ := List.mem_flatMap.mp hin
      exact pixelWrites_bounds _ _ _ _ _ i hmem
  case ROTATION_270 =>
    simp only [fillRectWrites, logicalDims, LCD_H_RES, LCD_V_RES] at hi
    by_cases hg : x ≥ 480 ∨ y ≥ 800 ∨ w ≤ 0 ∨ h ≤ 0
    · rw [if_pos hg] at hi
      simp at hi
    · rw [if_neg hg, if_pos (by decide)] at hi
      obtain ⟨row, hrow, hin⟩ := List.mem_flatMap.mp hi
      obtain ⟨col, hcol, hmem⟩ := List.mem_flatMap.mp hin
      exact pixelWrites_bounds _ _ _ _ _ i hmem

/-- C9 witness: concrete in-range stores of both primitives. -/
theorem c9_witness :
    ((0 : Int) ≤ 0 ∧ (0 : Int) < 800 * 480) ∧
    ((0 : Int) ≤ 1603 ∧ (1603 : Int) < 800 * 480) :=
  ⟨c9_stores_in_bounds.1 ROTATION_0 800 480 0 0 0 (by decide),
   c9_stores_in_bounds.2 ROTATION_0 3 2 1 1 1603 (by decide)⟩

-- ===========================================================================
-- C4: newline handling in the cursor-stream print path
-- ===========================================================================

/-- C4 counterexample: in `c4State` (text area 800x20 at origin, cursor at
y = 8, size 1, spacing 2) processing a newline advances y to 18, which
does not exceed the text area bottom edge 20 — yet the source clears the
area and resets the cursor to the top (because 18 + 8 > 20), so the cursor
does not end at the advanced y the claim predicts. -/
theorem c4_counterexample :
    c4State.cursor_y + (c4State.text_size : Int) * 8 + c4State.line_spacing ≤
      c4State.text_area_y + c4State.text_area_h ∧
    (printChar c4State 10).cursor_y = 0 ∧
    (printChar c4State 10).cursor_y ≠
      c4State.cursor_y + (c4State.text_size : Int) * 8 + c4State.line_spacing := by
  decide

/-- C4 amended: processing a newline moves the cursor x to the text-area
left edge and advances y by `text_size*8 + line_spacing`; the text area is
cleared (filled with the background color, at rotation 0 exactly on the
clipped text-area rectangle) and the cursor reset to the area's top-left
whenever the new y **plus one character height** would exceed the text
area's bottom edge; otherwise the cursor simply ends at the new y. -/
theorem c4_newline_spec (s : GfxState) :
    (printChar s 10 = newLine s) ∧
    (s.cursor_y + (s.text_size : Int) * 8 + s.line_spacing + (s.text_size : Int) * 8 ≤
        s.text_area_y + s.text_area_h →
      newLine s = { s with cursor_x := s.text_area_x, cursor_y := s.cursor_y + (s.text_size : Int) * 8 + s.line_spacing }) ∧
    (s.cursor_y + (s.text_size : Int) * 8 + s.line_spacing + (s.text_size : Int) * 8 >
        s.text_area_y + s.text_area_h →
      (newLine s).cursor_x = s.text_area_x ∧
      (newLine s).cursor_y = s.text_area_y ∧
      (newLine s).frame_buffer = writeAll s.frame_buffer
        (fillRectWrites s.current_rotation s.display_width s.display_height
          s.text_area_x s.text_area_y s.text_area_w s.text_area_h) s.text_bg_color ∧
      (s.current_rotation = ROTATION_0 → s.display_width = 800 →
        s.display_height = 480 →
        ∀ px py : Int, 0 ≤ px → px < 800 → 0 ≤ py → py < 480 →
          (newLine s).frame_buffer (py * 800 + px) =
            if max s.text_area_x 0 ≤ px ∧
               px < min (s.text_area_x + s.text_area_w) 800 ∧
               max s.text_area_y 0 ≤ py ∧
               py < min (s.text_area_y + s.text_area_h) 480
            then s.text_bg_color else s.frame_buffer (py * 800 + px))) := by
  have hunfold : newLine s =
      if s.cursor_y + (s.text_size : Int) * 8 + s.line_spacing + (s.text_size : Int) * 8 >
          s.text_area_y + s.text_area_h
      then clearTextArea { s with cursor_x := s.text_area_x, cursor_y := s.cursor_y + (s.text_size : Int) * 8 + s.line_spacing }
      else { s with cursor_x := s.text_area_x, cursor_y := s.cursor_y + (s.text_size : Int) * 8 + s.line_spacing } := rfl
  refine ⟨by simp [printChar], ?_, ?_⟩
  · intro hle
    rw [hunfold, if_neg (by omega)]
  · intro hgt
    rw [hunfold, if_pos hgt]
    refine ⟨rfl, rfl, rfl, ?_⟩
    intro hr hw hh px py hpx0 hpx hpy0 hpy
    exact fillRect_r0_cell
      { s with cursor_x := s.text_area_x, cursor_y := s.cursor_y + (s.text_size : Int) * 8 + s.line_spacing }
      s.text_area_x s.text_area_y s.text_area_w s.text_area_h s.text_bg_color
      hr hw hh px py hpx0 hpx hpy0 hpy

/-- C4 witness: in `s0` (full-screen text area, cursor at the origin) a
newline just advances the cursor; in `c4State` the overflow branch resets
the cursor to the text area's top-left corner. -/
theorem c4_witness :
    printChar s0 10 = newLine s0 ∧
    newLine s0 = { s0 with cursor_x := s0.text_area_x, cursor_y := s0.cursor_y + (s0.text_size : Int) * 8 + s0.line_spacing } ∧
    (newLine c4State).cursor_x = c4State.text_area_x ∧
    (newLine c4State).cursor_y = c4State.text_area_y :=
  ⟨(c4_newline_spec s0).1,
   (c4_newline_spec s0).2.1 (by decide),
   ((c4_newline_spec c4State).2.2 (by decide)).1,
   ((c4_newline_spec c4State).2.2 (by decide)).2.1⟩

-- ===========================================================================
-- C8: eight-fold symmetry of the circle algorithm
-- ===========================================================================

/-- The fuel argument of `circleLoopF` is irrelevant as soon as it covers
the remaining iteration count `(y + 1 - x).toNat`; in particular the fuel
`(radius + 1).toNat` chosen in `circleOffsets` reproduces the source loop
exactly. -/
theorem circleLoopF_stable : ∀ (f g : Nat) (x y d : Int),
    (y + 1 - x).toNat ≤ f → (y + 1 - x).toNat ≤ g →
    circleLoopF f x y d = circleLoopF g x y d := by
  intro f
  induction f with
  | zero =>
    intro g x y d hf hg
    cases g with
    | zero => rfl
    | succ g2 =>
      simp only [circleLoopF]
      rw [if_neg (by omega)]
  | succ f2 ih =>
    intro g x y d hf hg
    cases g with
    | zero =>
      simp only [circleLoopF]
      rw [if_neg (by omega)]
    | succ g2 =>
      simp only [circleLoopF]
      by_cases hxy : x ≤ y
      · rw [if_pos hxy, if_pos hxy]
        by_cases hd : d < 0
        · rw [if_pos hd, if_pos hd, ih g2 (x + 1) y _ (by omega) (by omega)]
        · rw [if_neg hd, if_neg hd, ih g2 (x + 1) (y - 1) _ (by omega) (by omega)]
      · rw [if_neg hxy, if_neg hxy]

/-- The eight offsets of one loop iteration are closed under the three
generating reflections (negate first component, negate second component,
swap the components). -/
theorem octOffsets_closed (x y a b : Int) (h : (a, b) ∈ octOffsets x y) :
    (-a, b) ∈ octOffsets x y ∧ (a, -b) ∈ octOffsets x y ∧ (b, a) ∈ octOffsets x y := by
  simp only [octOffsets, List.mem_cons, List.not_mem_nil, or_false,
    Prod.mk.injEq] at h
  rcases h with ⟨ha, hb⟩ | ⟨ha, hb⟩ | ⟨ha, hb⟩ | ⟨ha, hb⟩ |
    ⟨ha, hb⟩ | ⟨ha, hb⟩ | ⟨ha, hb⟩ | ⟨ha, hb⟩ <;>
    subst ha <;> subst hb <;> refine ⟨?_, ?_, ?_⟩ <;> simp [octOffsets]

/-- The whole emitted offset list of the midpoint loop is closed under the
three generating reflections, since each iteration emits its eight
symmetric offsets together. -/
theorem circleLoopF_closed : ∀ (fuel : Nat) (x y d a b : Int),
    (a, b) ∈ circleLoopF fuel x y d →
    (-a, b) ∈ circleLoopF fuel x y d ∧ (a, -b) ∈ circleLoopF fuel x y d ∧
      (b, a) ∈ circleLoopF fuel x y d := by
  intro fuel
  induction fuel with
  | zero =>
    intro x y d a b h
    simp [circleLoopF] at h
  | succ f2 ih =>
    intro x y d a b h
    simp only [circleLoopF] at h ⊢
    by_cases hxy : x ≤ y
    · rw [if_pos hxy] at h ⊢
      rw [List.mem_append] at h
      rcases h with h | h
      · obtain ⟨h1, h2, h3⟩ := octOffsets_closed x y a b h
        exact ⟨List.mem_append_left _ h1, List.mem_append_left _ h2,
          List.mem_append_left _ h3⟩
      · by_cases hd : d < 0
        · rw [if_pos hd] at h ⊢
          obtain ⟨h1, h2, h3⟩ := ih (x + 1) y (d + 2 * x + 3) a b h
          exact ⟨List.mem_append_right _ h1, List.mem_append_right _ h2,
            List.mem_append_right _ h3⟩
        · rw [if_neg hd] at h ⊢
          obtain ⟨h1, h2, h3⟩ := ih (x + 1) (y - 1) (d + 2 * (x - y) + 5) a b h
          exact ⟨List.mem_append_right _ h1, List.mem_append_right _ h2,
            List.mem_append_right _ h3⟩
    · rw [if_neg hxy] at h
      simp at h

/-- Closure of `circleOffsets` under the three generating reflections. -/
theorem circleOffsets_closed (r a b : Int) (h : (a, b) ∈ circleOffsets r) :
    (-a, b) ∈ circleOffsets r ∧ (a, -b) ∈ circleOffsets r ∧
      (b, a) ∈ circleOffsets r := by
  unfold circleOffsets at h ⊢
  split_ifs at h ⊢ with hr
  · simp at h
  · exact circleLoopF_closed _ _ _ _ a b h

/-- C8 amended: for every center, every radius `r > 0` and every offset,
the set of pixel positions that `circle` emits (the arguments of its
`pixel` calls, before the per-pixel clipping) is closed under all eight
reflections about the center.  (The set of cells actually painted is the
clipped image of this set, so it carries the same symmetry whenever the
whole circle lies within the logical screen.) -/
theorem c8_circle_emitted_symmetric (x0 y0 r : Int) (hr : 0 < r) (dx dy : Int)
    (hmem : (x0 + dx, y0 + dy) ∈ circlePoints x0 y0 r) :
    (x0 - dx, y0 + dy) ∈ circlePoints x0 y0 r ∧
    (x0 + dx, y0 - dy) ∈ circlePoints x0 y0 r ∧
    (x0 - dx, y0 - dy) ∈ circlePoints x0 y0 r ∧
    (x0 + dy, y0 + dx) ∈ circlePoints x0 y0 r ∧
    (x0 - dy, y0 + dx) ∈ circlePoints x0 y0 r ∧
    (x0 + dy, y0 - dx) ∈ circlePoints x0 y0 r ∧
    (x0 - dy, y0 - dx) ∈ circlePoints x0 y0 r := by
  have hmap : ∀ u v : Int, (u, v) ∈ circleOffsets r →
      (x0 + u, y0 + v) ∈ circlePoints x0 y0 r := by
    intro u v huv
    simp only [circlePoints, List.mem_map]
    exact ⟨(u, v), huv, rfl⟩
  have hoff : (dx, dy) ∈ circleOffsets r := by
    simp only [circlePoints, List.mem_map] at hmem
    obtain ⟨⟨a, b⟩, hab, heq⟩ := hmem
    simp only [Prod.mk.injEq] at heq
    have ha : a = dx := by omega
    have hb : b = dy := by omega
    rwa [ha, hb] at hab
  obtain ⟨hA, hB, hC⟩ := circleOffsets_closed r dx dy hoff
  have hD := (circleOffsets_closed r dx (-dy) hB).1
  have hE := (circleOffsets_closed r (-dx) dy hA).2.2
  have hF := (circleOffsets_closed r dy dx hC).1
  have hG := (circleOffsets_closed r dy (-dx) hE).1
  refine ⟨?_, ?_, ?_, ?_, ?_, ?_, ?_⟩
  · have h := hmap (-dx) dy hA
    rwa [show x0 + -dx = x0 - dx from by ring] at h
  · have h := hmap dx (-dy) hB
    rwa [show y0 + -dy = y0 - dy from by ring] at h
  · have h := hmap (-dx) (-dy) hD
    rwa [show x0 + -dx = x0 - dx from by ring,
      show y0 + -dy = y0 - dy from by ring] at h
  · exact hmap dy dx hC
  · have h := hmap (-dy) dx hF
    rwa [show x0 + -dy = x0 - dy from by ring] at h
  · have h := hmap dy (-dx) hE
    rwa [show y0 + -dx = y0 - dx from by ring] at h
  · have h := hmap (-dy) (-dx) hG
    rwa [show x0 + -dy = x0 - dy from by ring,
      show y0 + -dx = y0 - dx from by ring] at h

/-- C8 counterexample: for the circle of radius 1 centered at the screen
corner (0, 0) at rotation 0, the cell (1, 0) is painted but its
reflection (-1, 0) about the center is clipped away, so the set of cells
actually painted is not closed under the reflection maps for every
center. -/
theorem c8_counterexample :
    ((1 : Int), (0 : Int)) ∈ circleWritesXY ROTATION_0 LCD_H_RES LCD_V_RES 0 0 1 ∧
    ((-1 : Int), (0 : Int)) ∉ circleWritesXY ROTATION_0 LCD_H_RES LCD_V_RES 0 0 1 ∧
    ¬(∀ dx dy : Int,
        ((0 : Int) + dx, (0 : Int) + dy) ∈
          circleWritesXY ROTATION_0 LCD_H_RES LCD_V_RES 0 0 1 →
        ((0 : Int) - dx, (0 : Int) + dy) ∈
          circleWritesXY ROTATION_0 LCD_H_RES LCD_V_RES 0 0 1) := by
  refine ⟨by decide, by decide, fun hall => ?_⟩
  have h := hall 1 0 (by decide)
  exact absurd h (by decide)

/-- C8 witness: the amended symmetry theorem applied to the radius-1 circle
at the origin with the emitted point (0, 1). -/
theorem c8_witness :
    ((0 : Int) - 0, (0 : Int) + 1) ∈ circlePoints 0 0 1 ∧
    ((0 : Int) + 0, (0 : Int) - 1) ∈ circlePoints 0 0 1 ∧
    ((0 : Int) - 0, (0 : Int) - 1) ∈ circlePoints 0 0 1 ∧
    ((0 : Int) + 1, (0 : Int) + 0) ∈ circlePoints 0 0 1 ∧
    ((0 : Int) - 1, (0 : Int) + 0) ∈ circlePoints 0 0 1 ∧
    ((0 : Int) + 1, (0 : Int) - 0) ∈ circlePoints 0 0 1 ∧
    ((0 : Int) - 1, (0 : Int) - 0) ∈ circlePoints 0 0 1 :=
  c8_circle_emitted_symmetric 0 0 1 (by decide) 0 1 (by decide)

end FastGraphics
